import Mathlib

/-!
# Verification of the aemon versioned-OpenAPI-snapshot tool

Shallow embedding of the version-lifecycle core of the `aemon` repository:

* `aemon/config/loader.py`   — configuration and the version allocator
  (`ConfigLoader.get_version`),
* `aemon/core/generator.py`  — snapshot generation (`OpenAPIGenerator.generate`,
  `_save_metadata`, `get_existing_versions`, `validate_spec`),
* `aemon/output/html_generator.py` — the static index renderer
  (`HTMLGenerator.generate_html_index`, `_get_versions_with_metadata`).

The file system is modelled as an explicit directory listing, Python strings as
Lean `String`, Python `int`/`str` decimal conversions by executable functions
proved to round-trip, and external collaborators (the FastAPI application
loader, the clock, datetime parsing) as explicit parameters.
-/

namespace Aemon

/-! ## Python string / integer primitives

Models of the Python builtins the source relies on: `str.isdigit`,
`int(s)` on digit strings, `str(n)`, slicing `s[k:]`, `str.startswith`
and `str.strip`.  ASCII decimal digits only (the digit strings handled by
the tool are produced by `str(int)`).
-/

/-- Model of Python `s[k:]` (string slicing from index `k`). -/
def pySlice (s : String) (k : Nat) : String := ⟨s.data.drop k⟩

/-- Model of Python `str.startswith` / the `prefix*` glob used by the source
(the configured version marker is matched as a literal leading string). -/
def pyStartsWith (s p : String) : Bool := p.data.isPrefixOf s.data

/-- Model of Python `str.isdigit` (restricted to ASCII decimal digits):
non-empty and every character a digit. -/
def pyIsDigit (s : String) : Bool := !s.data.isEmpty && s.data.all Char.isDigit

/-- Numeric value of a digit character, `c - 48`; model of converting one
character during Python `int(s)`. -/
def charDigitVal (c : Char) : Nat := c.toNat - 48

/-- Model of Python `int(s)` on a string of decimal digits: big-endian fold. -/
def pyStrToNat (s : String) : Nat :=
  s.data.foldl (fun acc c => 10 * acc + charDigitVal c) 0

/-- Little-endian decimal digits of `n`, with explicit structural fuel so the
kernel can evaluate it (`fuel ≥ n` suffices). -/
def natDigitsRevFuel : Nat → Nat → List Nat
  | 0, _ => []
  | fuel + 1, n => if n = 0 then [] else n % 10 :: natDigitsRevFuel fuel (n / 10)

/-- Little-endian decimal digits of `n`. -/
def natDigitsRev (n : Nat) : List Nat := natDigitsRevFuel n n

/-- Model of Python `str(n)` for a natural number: decimal notation. -/
def pyStr (n : Nat) : String :=
  if n = 0 then "0" else ⟨((natDigitsRev n).map Nat.digitChar).reverse⟩

/-- Little-endian decimal valuation, the inverse of `natDigitsRev`. -/
def ofDigitsLE (l : List Nat) : Nat := l.foldr (fun d acc => d + 10 * acc) 0

/-! ## Configuration (`aemon/config/loader.py`)

Only the configuration keys consulted by the version-lifecycle core are
modelled.  `version_prefix` is rendered as `versionPrefix` (the snake-case
name is unavailable here); `version` carries the value of
`self._config.get("version", "v1")` consulted when auto-increment is off.
-/

structure Config where
  output_dir : String
  title : String
  description : String
  versionPrefix : String
  auto_increment : Bool
  version : String
deriving Repr, DecidableEq

/-- `ConfigLoader.DEFAULT_CONFIG` restricted to the modelled keys; `version`
is the `"v1"` fallback of `self._config.get("version", "v1")`. -/
def DEFAULT_CONFIG : Config where
  output_dir := "docs/api"
  title := "API Documentation"
  description := "Generated API documentation"
  versionPrefix := "v"
  auto_increment := true
  version := "v1"

/-! ## File-system model

The output directory is modelled as a flag for its own existence plus the
listing of its immediate children.  For each child we record the facts the
source inspects: its name, whether it is a directory, whether
`api_config.yaml` exists inside it, and its parsed `metadata.json`
(`none` models both an absent and an unparseable metadata file, the two
cases `get_spec_info` / `_get_versions_with_metadata` treat alike).
-/

structure MetadataConfig where
  output_dir : String
  title : String
  description : String
deriving Repr, DecidableEq

/-- The metadata record written by `OpenAPIGenerator._save_metadata`. -/
structure Metadata where
  generated_at : String
  generator : String
  module_path : String
  app_name : String
  fastapi_version : String
  routes_count : Nat
  config : MetadataConfig
deriving Repr, DecidableEq

structure DirEntry where
  name : String
  isDir : Bool
  hasSpec : Bool
  metadata : Option Metadata
deriving Repr, DecidableEq

structure FS where
  outputDirExists : Bool
  entries : List DirEntry
deriving Repr, DecidableEq

/-! ## Version allocator (`ConfigLoader.get_version`) -/

/-- Strict code-point lexicographic comparison of character lists. -/
def charListLtB : List Char → List Char → Bool
  | [], [] => false
  | [], _ :: _ => true
  | _ :: _, [] => false
  | a :: as, b :: bs =>
    if a.toNat < b.toNat then true
    else if b.toNat < a.toNat then false
    else charListLtB as bs

/-- Lexicographic order on strings as a Bool, the order Python `sorted` uses
on `str` (code-point lexicographic; `a ≤ b` iff not `b < a`). -/
def strLeB (a b : String) : Bool := !charListLtB b.data a.data

/-- Python `sorted` on a list of strings.  Python's sort is stable and its
order on `str` is total, so any stable sorting algorithm models it; we use
insertion sort, which the kernel can evaluate. -/
def sortedStrings (l : List String) : List String :=
  l.insertionSort (fun a b => strLeB a b = true)

/-- The suffix-parsing step of the allocator: take `v[len(pre):]` and return
its integer value when `isdigit`, `none` otherwise. -/
def parseSuffix (pre v : String) : Option Nat :=
  let s := pySlice v pre.length
  if pyIsDigit s then some (pyStrToNat s) else none

/-- Python `max()` on a (non-empty) list of non-negative integers. -/
def listMax (l : List Nat) : Nat := l.foldl Nat.max 0

/-- The glob-and-filter `[d.name for d in output_dir.glob(f"PRE*") if d.is_dir()]`
used by `get_version`. -/
def versionDirNames (pre : String) (entries : List DirEntry) : List String :=
  (entries.filter (fun d => pyStartsWith d.name pre && d.isDir)).map DirEntry.name

/-- `ConfigLoader.get_version` (loader.py lines 134-163). -/
def get_version (cfg : Config) (fs : FS) : String :=
  if !cfg.auto_increment then cfg.version
  else
    let pre := cfg.versionPrefix
    if !fs.outputDirExists then pre ++ "1"
    else
      let existing := sortedStrings (versionDirNames pre fs.entries)
      if existing.isEmpty then pre ++ "1"
      else
        let version_numbers := existing.filterMap (parseSuffix pre)
        if version_numbers.isEmpty then pre ++ "1"
        else pre ++ pyStr (listMax version_numbers + 1)

/-- The allocator contract as worded by the spec (§4.2): parse the remainder
after the prefix of every prefix-matching subdirectory, ignore entries that
do not parse, and return `pre + str(max(parsed) + 1)`, or `pre + "1"` when
the parsed set is empty or the output directory does not exist. -/
def allocateNextSpec (pre : String) (fs : FS) : String :=
  if !fs.outputDirExists then pre ++ "1"
  else
    let parsed := (versionDirNames pre fs.entries).filterMap (parseSuffix pre)
    if parsed.isEmpty then pre ++ "1"
    else pre ++ pyStr (listMax parsed + 1)

/-- Concrete directory listing for the C1 witness: version directories `v1`,
`v2`, `v5`, a prefix-matching directory `vfoo` whose suffix does not parse,
and a prefix-matching plain file `v9`. -/
def fsC1 : FS where
  outputDirExists := true
  entries :=
    [ ⟨"v1", true, true, none⟩
    , ⟨"v2", true, true, none⟩
    , ⟨"vfoo", true, false, none⟩
    , ⟨"v9", false, false, none⟩
    , ⟨"v5", true, true, none⟩ ]

/-! ## Generator (`aemon/core/generator.py`)

`OpenAPIGenerator.generate` orchestrates external effects: loading the
FastAPI application, writing the two schema serializations
(`_save_spec`) and writing the metadata record (`_save_metadata`).  Each
effect's outcome is supplied as data (`Except` models the step raising an
exception), the clock (`datetime.now().isoformat()`) as the string `now`.
On a failing write the partially-written directory contents are not
modelled (the state is returned unchanged); no claim concerns that state.
-/

/-- The application object as the generation boundary sees it (spec §6):
its route list and its `__version__` attribute. -/
structure App where
  routes : List String
  fastapiVersion : String
deriving Repr, DecidableEq

/-- An exception raised by an external collaborator, identified by its
message. -/
structure PyExc where
  msg : String
deriving Repr, DecidableEq

/-- `GenerationError` (`exceptions.py` lines 24-26) as raised by
`generate`: the wrapping message plus the original cause attached via
`raise ... from e`. -/
structure GenerationError where
  msg : String
  cause : PyExc
deriving Repr, DecidableEq

/-- `f"Failed to generate OpenAPI spec: {e}"`. -/
def genErrMsg (e : PyExc) : String := "Failed to generate OpenAPI spec: " ++ e.msg

/-- Outcomes of the external effects of one `generate` call. -/
structure GenEffects where
  loadApp : Except PyExc App
  specWrite : Except PyExc Unit
  metaWrite : Except PyExc Unit

/-- Result of `generate`: the returned version string (with a flag
recording whether the call skipped — the `already exists, skipping` path),
or the raised `GenerationError`. -/
inductive GenOutcome where
  | ok (version : String) (skipped : Bool)
  | err (e : GenerationError)
deriving Repr, DecidableEq

/-- `OpenAPIGenerator._spec_exists`: `version_dir / "api_config.yaml"`
exists. -/
def spec_exists (fs : FS) (version : String) : Bool :=
  fs.entries.any (fun d => d.name == version && d.hasSpec)

/-- The record `OpenAPIGenerator._save_metadata` writes (generator.py
lines 138-156), as a structure. -/
def mkMetadata (cfg : Config) (module_path app_name : String) (app : App)
    (now : String) : Metadata where
  generated_at := now
  generator := "aemon"
  module_path := module_path
  app_name := app_name
  fastapi_version := app.fastapiVersion
  routes_count := app.routes.length
  config := ⟨cfg.output_dir, cfg.title, cfg.description⟩

/-- Effect of `_save_spec` + `_save_metadata` on the output directory:
`version_dir` is created (updated in place if an entry with that name
already exists — the force-overwrite path) and now holds the schema files
and the metadata record. -/
def writeVersionDir (entries : List DirEntry) (version : String) (m : Metadata) :
    List DirEntry :=
  if entries.any (fun d => d.name == version) then
    entries.map (fun d =>
      if d.name == version then { d with isDir := true, hasSpec := true, metadata := some m }
      else d)
  else entries ++ [⟨version, true, true, some m⟩]

/-- `OpenAPIGenerator.generate` (generator.py lines 33-78). -/
def generate (cfg : Config) (module_path app_name : String) (eff : GenEffects)
    (now : String) (force_regenerate : Bool) (fs : FS) : GenOutcome × FS :=
  match eff.loadApp with
  | .error e => (.err ⟨genErrMsg e, e⟩, fs)
  | .ok app =>
    let version := get_version cfg fs
    if !force_regenerate && spec_exists fs version then
      (.ok version true, fs)
    else
      match eff.specWrite with
      | .error e => (.err ⟨genErrMsg e, e⟩, fs)
      | .ok _ =>
        match eff.metaWrite with
        | .error e => (.err ⟨genErrMsg e, e⟩, fs)
        | .ok _ =>
          (.ok version false,
            { outputDirExists := true,
              entries := writeVersionDir fs.entries version
                (mkMetadata cfg module_path app_name app now) })

/-- Sort key of `get_existing_versions`:
`int(v[len(prefix):]) if v[len(prefix):].isdigit() else 0`. -/
def versionNumKey (pre v : String) : Nat :=
  let s := pySlice v pre.length
  if pyIsDigit s then pyStrToNat s else 0

/-- `OpenAPIGenerator.get_existing_versions` (generator.py lines 158-172):
prefix-matching directories containing `api_config.yaml`, sorted (stably)
by numeric suffix with non-parsing suffixes keyed 0. -/
def get_existing_versions (cfg : Config) (fs : FS) : List String :=
  if !fs.outputDirExists then []
  else
    let pre := cfg.versionPrefix
    let versions := (fs.entries.filter
      (fun d => pyStartsWith d.name pre && d.isDir && d.hasSpec)).map DirEntry.name
    versions.insertionSort (fun a b => versionNumKey pre a ≤ versionNumKey pre b)

/-- The filter of `get_existing_versions` before sorting: those immediate
children which match the prefix, are directories, and contain the primary
schema file. -/
def specDirNames (pre : String) (fs : FS) : List String :=
  if fs.outputDirExists then
    (fs.entries.filter
      (fun d => pyStartsWith d.name pre && d.isDir && d.hasSpec)).map DirEntry.name
  else []

/-! ## Validator (`OpenAPIGenerator.validate_spec`, generator.py 189-229) -/

/-- The `info` value of a parsed mapping document.  `spec.get("info", {})`
yields `{}` when the key is absent, so `absent` behaves like the empty
mapping; when the key is present its value may be a mapping (with
optional `title` / `version` keys) or a non-mapping value — a scalar or
list — on which `info.get("title")` raises `AttributeError`.  `tyName`
records the Python type name of the non-mapping value. -/
inductive InfoValue where
  | absent
  | mapping (title version : Option String)
  | nonMapping (tyName : String)
deriving Repr, DecidableEq

/-- The parts of a parsed mapping document that `validate_spec` inspects:
the `openapi` marker (`none` when the key is absent), the `info` value,
and the keys of the paths mapping (`[]` covering an absent and an empty —
both falsy — paths value). -/
structure SpecDoc where
  openapi : Option String
  info : InfoValue
  paths : List String
deriving Repr, DecidableEq

/-- What loading `api_config.yaml` for a version can yield: the file is
missing, `yaml.safe_load` raises, `yaml.safe_load` succeeds but returns a
non-mapping (an empty file parses to `None`; a bare scalar — as in the
repository's own `test_get_existing_versions`, which writes the scalar
`test` into `api_config.yaml` — or a list are equally possible; `tyName`
records its Python type name), or a parsed mapping document. -/
inductive SpecFile where
  | missing
  | unparseable (emsg : String)
  | nonMapping (tyName : String)
  | parsed (doc : SpecDoc)
deriving Repr, DecidableEq

/-- Python truthiness of `d.get(key)` for a string-valued key: `None`
(absent) and the empty string are falsy. -/
def truthyStr : Option String → Bool
  | none => false
  | some s => !s.isEmpty

/-- The structured result `validate_spec` returns.  The two early-return
dictionaries carry no `warnings` key; they are modelled with `warnings = []`.
The echoed `spec` entry of the full result is not modelled. -/
structure ValidationResult where
  valid : Bool
  errors : List String
  warnings : List String
deriving Repr, DecidableEq

/-- The `AttributeError` raised by calling `.get` on a non-mapping value
of the given Python type (the quote characters of CPython's message text
are not reproduced). -/
def attributeError (tyName : String) : PyExc :=
  ⟨"AttributeError: " ++ tyName ++ " object has no attribute get"⟩

/-- `info.get("title")` on a mapping (or absent, i.e. `{}`) info value. -/
def infoTitle : InfoValue → Option String
  | .absent => none
  | .mapping t _ => t
  | .nonMapping _ => none

/-- `info.get("version")` on a mapping (or absent) info value. -/
def infoVersion : InfoValue → Option String
  | .absent => none
  | .mapping _ v => v
  | .nonMapping _ => none

/-- `OpenAPIGenerator.validate_spec`, given the outcome of loading the
version's `api_config.yaml` (`specPath` is the interpolated path text of
the error messages).  `Except.error` models the function raising: it
raises when the parsed document is a non-mapping (`spec.get("openapi")`
at line 212 raises before anything is returned) and when the document's
`info` value is a non-mapping (`info.get("title")` at line 216 raises
after the `openapi` check ran, discarding the accumulated errors). -/
def validate_spec (specPath : String) (file : SpecFile) :
    Except PyExc ValidationResult :=
  match file with
  | .missing => .ok ⟨false, ["Spec file not found: " ++ specPath], []⟩
  | .unparseable e => .ok ⟨false, ["Failed to parse spec: " ++ e], []⟩
  | .nonMapping ty => .error (attributeError ty)
  | .parsed spec =>
    let errors := if !truthyStr spec.openapi then ["Missing OpenAPI version"] else []
    match spec.info with
    | .nonMapping ty => .error (attributeError ty)
    | info =>
      let warnings :=
        (if !truthyStr (infoTitle info) then ["Missing API title"] else []) ++
        (if !truthyStr (infoVersion info) then ["Missing API version"] else []) ++
        (if spec.paths.isEmpty then ["No API paths defined"] else [])
      .ok ⟨errors.length == 0, errors, warnings⟩

/-- Whether a `validate_spec` outcome is a returned structured result
(true) or a raise (false). -/
def returnsResult : Except PyExc ValidationResult → Bool
  | .ok _ => true
  | .error _ => false

/-- The load outcomes on which `validate_spec` performs no `.get` call on
a non-mapping value: file missing, parse failure, or a mapping document
whose `info` value is itself not a non-mapping. -/
def specIsMapping : SpecFile → Bool
  | .missing => true
  | .unparseable _ => true
  | .nonMapping _ => false
  | .parsed d =>
    match d.info with
    | .nonMapping _ => false
    | _ => true

/-- Parsed document with the `openapi` marker, a title and a version, but
no paths. -/
def docNoPaths : SpecDoc := ⟨some "3.0.0", .mapping (some "T") (some "1.0.0"), []⟩

/-- Parsed document lacking the `openapi` marker. -/
def docNoMarker : SpecDoc := ⟨none, .mapping (some "T") (some "1.0.0"), ["/items"]⟩

/-- Concrete listing for the C5 witness: two spec-bearing version
directories out of numeric order, a directory without the schema file, a
non-directory entry and a non-parsing suffix. -/
def fsC5 : FS where
  outputDirExists := true
  entries :=
    [ ⟨"v10", true, true, none⟩
    , ⟨"v2", true, true, none⟩
    , ⟨"v3", true, false, none⟩
    , ⟨"v4", false, true, none⟩
    , ⟨"vdraft", true, true, none⟩ ]

/-- The output directory in its initial, empty state. -/
def emptyFS : FS := ⟨true, []⟩

/-- Effects of a run whose application loading raises. -/
def effLoadFail : GenEffects := ⟨.error ⟨"No module named main"⟩, .ok (), .ok ()⟩

/-! ## Successive generations from an empty output directory (C2, C3) -/

/-- Effects of a run in which every external step succeeds. -/
def okEffects (app : App) : GenEffects := ⟨.ok app, .ok (), .ok ()⟩

/-- An application with the three declared routes of the spec's end-to-end
scenario. -/
def app3 : App := ⟨["read_root", "read_item", "create_item"], "unknown"⟩

/-- The version directory `v(i+1)` as `generate` writes it under the
default configuration. -/
def vEntry (mp an : String) (app : App) (now : String) (i : Nat) : DirEntry :=
  ⟨"v" ++ pyStr (i + 1), true, true, some (mkMetadata DEFAULT_CONFIG mp an app now)⟩

/-- Output-directory listing after `k` successful generations: `v1 … vk`. -/
def vEntries (mp an : String) (app : App) (now : String) (k : Nat) : List DirEntry :=
  (List.range k).map (vEntry mp an app now)

/-- `N` successive `generate` calls with `force=false` against one output
directory, starting from the empty state: outcomes in order, plus the
final state. -/
def genTrace (cfg : Config) (mp an : String) (eff : GenEffects) (now : String) :
    Nat → List GenOutcome × FS
  | 0 => ([], emptyFS)
  | n + 1 =>
    let p := genTrace cfg mp an eff now n
    let r := generate cfg mp an eff now false p.2
    (p.1 ++ [r.1], r.2)

/-! ## Index renderer (`aemon/output/html_generator.py`)

`generate_html_index` is modelled as the string it writes to
`index.html`.  The template's `<style>` and `<script>` blocks and the
search/theme controls are constant text with no interpolations; they are
abridged below (their literal contents contain neither the row anchor
`<a href="api/` nor the empty-state text, which is all the claims about
the document depend on).  `datetime.fromisoformat`+`strftime` is an
external collaborator, modelled by a parameter `parseIso` whose `none`
outcome is the `except:` branch. -/

/-- Model of Python `str.strip()` (over the whitespace the template emits). -/
def pyStrip (s : String) : String :=
  ⟨((s.data.dropWhile Char.isWhitespace).reverse.dropWhile Char.isWhitespace).reverse⟩

/-- One element of `_get_versions_with_metadata`'s result:
`{"version": ..., "metadata": ...?}`. -/
structure VersionInfo where
  version : String
  metadata : Option Metadata
deriving Repr, DecidableEq

/-- `version_sort_key` (html_generator.py lines 593-599):
`int(version[1:])` when the rest is digits, else 0. -/
def version_sort_key (v : String) : Nat :=
  let s := pySlice v 1
  if pyIsDigit s then pyStrToNat s else 0

/-- `HTMLGenerator._get_versions_with_metadata` (lines 569-601): the
directories matching the literal glob `v*` — independent of the
configured version prefix and of whether the schema file exists — with
their metadata when loadable, sorted descending by `version_sort_key`
(Python's `sorted(..., reverse=True)` is stable, modelled by a stable
sort under the reversed key comparison). -/
def get_versions_with_metadata (fs : FS) : List VersionInfo :=
  if !fs.outputDirExists then []
  else
    let versions := (fs.entries.filter (fun d => pyStartsWith d.name "v" && d.isDir)).map
      (fun d => VersionInfo.mk d.name d.metadata)
    versions.insertionSort (fun a b => version_sort_key b.version ≤ version_sort_key a.version)

/-- The `v*`-glob directory filter of the index renderer. -/
def vDirEntries (fs : FS) : List DirEntry :=
  if fs.outputDirExists then
    fs.entries.filter (fun d => pyStartsWith d.name "v" && d.isDir)
  else []

/-- `metadata.get("generated_at", "Unknown")`. -/
def rowGeneratedAt (vi : VersionInfo) : String :=
  match vi.metadata with
  | some m => m.generated_at
  | none => "Unknown"

/-- `metadata.get("routes_count", "Unknown")`, as interpolated into the row. -/
def rowRoutesCount (vi : VersionInfo) : String :=
  match vi.metadata with
  | some m => pyStr m.routes_count
  | none => "Unknown"

/-- The date-formatting `try/except` of `generate_html_index` (lines
56-64): parse-and-format when not `"Unknown"`, fall back to the raw value
when parsing raises. -/
def formatDate (parseIso : String → Option String) (generated_at : String) : String :=
  if generated_at ≠ "Unknown" then
    match parseIso generated_at with
    | some d => d
    | none => generated_at
  else "Unknown"

def rowChunk1 : String := "\n            <tr data-version=\""
def rowChunk2 : String := "\" data-date=\""
def rowChunk3 : String := "\">\n                <td>\n                    <a href=\"api/"
def rowChunk4 : String :=
  "/index.html\" class=\"version-link\">\n                        <span class=\"version-badge\">"
def rowChunk5 : String :=
  "</span>\n                    </a>\n                </td>\n                <td class=\"date-cell\">"
def rowChunk6 : String := "</td>\n                <td class=\"routes-cell\">"
def rowChunk7 : String :=
  "</td>\n                <td class=\"actions-cell\">\n                    <a href=\"api/"
def rowChunk8 : String :=
  "/api_config.yaml\" class=\"action-link\" title=\"Download YAML\">\n                        \uF8FF\u00FC\u00EC\u00D1 YAML\n                    </a>\n                    <a href=\"api/"
def rowChunk9 : String :=
  "/api_config.json\" class=\"action-link\" title=\"Download JSON\">\n                        \uF8FF\u00FC\u00EC\u00D1 JSON\n                    </a>\n                </td>\n            </tr>\n            "

/-- One `<tr>` of the version table (the per-version f-string of lines
66-84, transcribed chunk by chunk around its interpolations). -/
def renderRow (parseIso : String → Option String) (vi : VersionInfo) : String :=
  rowChunk1 ++ vi.version ++ rowChunk2 ++ rowGeneratedAt vi ++ rowChunk3 ++ vi.version ++
    rowChunk4 ++ vi.version ++ rowChunk5 ++ formatDate parseIso (rowGeneratedAt vi) ++
    rowChunk6 ++ rowRoutesCount vi ++ rowChunk7 ++ vi.version ++ rowChunk8 ++ vi.version ++
    rowChunk9

/-- The `rows` accumulation loop (`rows = ""` then `rows += f"..."`). -/
def renderRows (parseIso : String → Option String) (versions : List VersionInfo) : String :=
  versions.foldl (fun rows vi => rows ++ renderRow parseIso vi) ""

/-- The row substituted when `rows.strip()` is falsy. -/
def emptyStateRow : String :=
  "<tr><td colspan=\"4\" class=\"empty-state\"><h3>No API versions found</h3><p>Generate your first API documentation to see it here.</p></td></tr>"

/-- The `<style>` block: constant text, abridged (css rules only). -/
def indexStyle : String := "<style>(css rules elided)</style>"

/-- The `<script>` block: constant text, abridged (theme toggle, search
filtering and keyboard shortcuts). -/
def indexScript : String := "<script>(theme, search and shortcut script elided)</script>"

/-- The search/theme controls block: constant text, abridged. -/
def indexControls : String := "<div class=\"controls\">(search input and theme toggle elided)</div>"

/-- `"API Documentation"`, the default of `self.config.get("title", ...)`. -/
def indexDefaultTitle : String := "API Documentation"

/-- `"API versions and documentation"`, the default of
`self.config.get("description", ...)`. -/
def indexDefaultDescription : String := "API versions and documentation"

/-- Document text before the row insertion point. -/
def indexHead (title description : String) : String :=
  "<!DOCTYPE html>\n<html lang=\"en\">\n<head>\n    <meta charset=\"UTF-8\">\n    <meta name=\"viewport\" content=\"width=device-width, initial-scale=1.0\">\n    <title>"
    ++ title ++ "</title>\n    " ++ indexStyle ++
    "\n</head>\n<body>\n    <div class=\"container\">\n        <header class=\"header\">\n            <h1>"
    ++ title ++ "</h1>\n            <p>" ++ description ++
    "</p>\n        </header>\n        \n        " ++ indexControls ++
    "\n        \n        <div class=\"table-container\">\n            <table id=\"versionsTable\">\n                <thead>\n                    <tr>\n                        <th>Version</th>\n                        <th>Generated</th>\n                        <th>Routes</th>\n                        <th>Actions</th>\n                    </tr>\n                </thead>\n                <tbody>\n                    "

/-- Document text after the row insertion point. -/
def indexTail : String :=
  "\n                </tbody>\n            </table>\n        </div>\n    </div>\n    \n    "
    ++ indexScript ++ "\n</body>\n</html>"

/-- `HTMLGenerator.generate_html_index` (lines 42-443), as the document it
writes: the version rows (or the empty-state row when `rows.strip()` is
falsy) spliced into the table body of the template. -/
def generate_html_index (parseIso : String → Option String) (title description : String)
    (fs : FS) : String :=
  let versions := get_versions_with_metadata fs
  let rows := renderRows parseIso versions
  indexHead title description ++
    (if pyStrip rows = "" then emptyStateRow else rows) ++ indexTail

/-- The anchor pattern every version row links its detail view with; the
claims' notion of a "version link". -/
def versionAnchorPat : String := "<a href=\"api/"

/-- The empty-state marker text. -/
def emptyStateMarker : String := "No API versions found"

/-- Executable infix test (used to settle substring facts about concrete
documents by evaluation). -/
def containsSub (pat s : List Char) : Bool := s.tails.any (fun t => pat.isPrefixOf t)

/-- Sample metadata record for the renderer witnesses. -/
def mdW : Metadata :=
  ⟨"2024-01-02T10:00:00", "aemon", "main.py", "app", "unknown", 3,
    ⟨"docs/api", "T", "D"⟩⟩

/-- Listing with one version lacking metadata and one with it. -/
def fsC6 : FS := ⟨true, [⟨"v1", true, true, none⟩, ⟨"v2", true, true, some mdW⟩]⟩

/-- Missing output directory. -/
def fsMissing : FS := ⟨false, []⟩

/-- Configuration with a version marker other than `"v"` that still starts
with the letter v. -/
def cfgVer : Config := { DEFAULT_CONFIG with versionPrefix := "ver" }

/-- State after the generator wrote one snapshot under `cfgVer`. -/
def fsC10 : FS := (generate cfgVer "main.py" "app" (okEffects app3) "t0" false emptyFS).2

/-! ## The persisted metadata record (C8) -/

/-- JSON-like values, for stating field-for-field which object
`_save_metadata` serializes. -/
inductive JValue where
  | s (v : String)
  | n (v : Nat)
  | obj (fields : List (String × JValue))

/-- The JSON object `_save_metadata` writes to `metadata.json`, field for
field in source order (generator.py lines 140-152). -/
def metadataJson (m : Metadata) : List (String × JValue) :=
  [ ("generated_at", JValue.s m.generated_at)
  , ("generator", JValue.s m.generator)
  , ("module_path", JValue.s m.module_path)
  , ("app_name", JValue.s m.app_name)
  , ("fastapi_version", JValue.s m.fastapi_version)
  , ("routes_count", JValue.n m.routes_count)
  , ("config", JValue.obj
      [ ("output_dir", JValue.s m.config.output_dir)
      , ("title", JValue.s m.config.title)
      , ("description", JValue.s m.config.description) ]) ]

/-- The field list asserted by the claim (and spec §6): it omits
`fastapi_version`. -/
def specClaimedMetadataKeys : List String :=
  ["generated_at", "generator", "module_path", "app_name", "routes_count", "config"]

/-! ## Theorems -/

theorem natDigitsRevFuel_lt_ten {fuel n d : Nat} (h : d ∈ natDigitsRevFuel fuel n) :
    d < 10 := by
  induction fuel generalizing n with
  | zero => simp [natDigitsRevFuel] at h
  | succ fuel ih =>
    unfold natDigitsRevFuel at h
    by_cases h0 : n = 0
    · simp [h0] at h
    · simp only [h0, if_false, List.mem_cons] at h
      rcases h with h | h
      · omega
      · exact ih h

theorem ofDigitsLE_natDigitsRevFuel : ∀ fuel n, n ≤ fuel →
    ofDigitsLE (natDigitsRevFuel fuel n) = n := by
  intro fuel
  induction fuel with
  | zero => intro n hn; interval_cases n; simp [natDigitsRevFuel, ofDigitsLE]
  | succ fuel ih =>
    intro n hn
    unfold natDigitsRevFuel
    by_cases h0 : n = 0
    · simp [h0, ofDigitsLE]
    · have hdiv : n / 10 ≤ fuel := by
        have : n / 10 < n := Nat.div_lt_self (Nat.pos_of_ne_zero h0) (by omega)
        omega
      simp only [h0, if_false, ofDigitsLE, List.foldr_cons]
      have := ih (n / 10) hdiv
      unfold ofDigitsLE at this
      rw [this]
      omega

theorem ofDigitsLE_natDigitsRev (n : Nat) : ofDigitsLE (natDigitsRev n) = n :=
  ofDigitsLE_natDigitsRevFuel n n le_rfl

theorem natDigitsRev_lt_ten {n d : Nat} (h : d ∈ natDigitsRev n) : d < 10 :=
  natDigitsRevFuel_lt_ten h

theorem natDigitsRev_ne_nil {n : Nat} (h : n ≠ 0) : natDigitsRev n ≠ [] := by
  cases n with
  | zero => exact absurd rfl h
  | succ m =>
    unfold natDigitsRev natDigitsRevFuel
    simp

theorem digitChar_isDigit {d : Nat} (h : d < 10) : (Nat.digitChar d).isDigit = true := by
  interval_cases d <;> decide

theorem charDigitVal_digitChar {d : Nat} (h : d < 10) :
    charDigitVal (Nat.digitChar d) = d := by
  interval_cases d <;> decide

theorem pyStrToNat_digitChars (L : List Nat) (hL : ∀ d ∈ L, d < 10) :
    ((L.map Nat.digitChar).reverse).foldl (fun acc c => 10 * acc + charDigitVal c) 0
      = ofDigitsLE L := by
  induction L with
  | nil => simp [ofDigitsLE]
  | cons d L ih =>
    have hd : d < 10 := hL d (List.mem_cons_self d L)
    have hL' : ∀ x ∈ L, x < 10 := fun x hx => hL x (List.mem_cons_of_mem d hx)
    simp only [List.map_cons, List.reverse_cons, List.foldl_append, List.foldl_cons,
      List.foldl_nil, ih hL', ofDigitsLE, List.foldr_cons]
    rw [charDigitVal_digitChar hd]
    omega

/-- Round-trip: Python `int(str(n)) = n`. -/
theorem pyStrToNat_pyStr (n : Nat) : pyStrToNat (pyStr n) = n := by
  unfold pyStr pyStrToNat
  by_cases h0 : n = 0
  · simp [h0]
    decide
  · simp only [h0, if_false]
    rw [pyStrToNat_digitChars _ (fun d hd => natDigitsRev_lt_ten hd)]
    exact ofDigitsLE_natDigitsRev n

/-- Every character of `str(n)` is a decimal digit. -/
theorem pyStr_all_digits {n : Nat} {c : Char} (h : c ∈ (pyStr n).data) :
    c.isDigit = true := by
  unfold pyStr at h
  by_cases h0 : n = 0
  · simp [h0] at h
    simp [h, Char.isDigit]
  · simp only [h0, if_false, List.mem_reverse, List.mem_map] at h
    obtain ⟨d, hd, rfl⟩ := h
    exact digitChar_isDigit (natDigitsRev_lt_ten hd)

theorem pyStr_data_ne_nil (n : Nat) : (pyStr n).data ≠ [] := by
  unfold pyStr
  by_cases h0 : n = 0
  · simp [h0]
  · simp only [h0, if_false]
    simpa using natDigitsRev_ne_nil h0

/-- Round-trip: Python `str(n).isdigit()` is true. -/
theorem pyIsDigit_pyStr (n : Nat) : pyIsDigit (pyStr n) = true := by
  unfold pyIsDigit
  simp only [Bool.and_eq_true, Bool.not_eq_true', List.isEmpty_eq_false,
    List.all_eq_true]
  refine ⟨?_, fun c hc => pyStr_all_digits hc⟩
  simpa using pyStr_data_ne_nil n

theorem pyStr_injective : Function.Injective pyStr := by
  intro a b h
  have := pyStrToNat_pyStr a
  rw [h, pyStrToNat_pyStr b] at this
  omega

theorem data_append (s t : String) : (s ++ t).data = s.data ++ t.data := rfl

theorem pySlice_append (p s : String) : pySlice (p ++ s) p.length = s := by
  unfold pySlice
  rw [data_append]
  have : p.length = p.data.length := rfl
  rw [this, List.drop_left]

theorem pyStartsWith_append (p s : String) : pyStartsWith (p ++ s) p = true := by
  unfold pyStartsWith
  rw [data_append, List.isPrefixOf_iff_prefix]
  exact List.prefix_append _ _

theorem listMax_perm {l l' : List Nat} (h : l.Perm l') : listMax l = listMax l' := by
  unfold listMax
  exact h.foldl_eq 0

theorem sortedStrings_perm (l : List String) : (sortedStrings l).Perm l :=
  List.perm_insertionSort _ l

theorem sortedStrings_nil : sortedStrings [] = [] := rfl

theorem get_version_eq_allocate (cfg : Config) (fs : FS)
    (h : cfg.auto_increment = true) :
    get_version cfg fs = allocateNextSpec cfg.versionPrefix fs := by
  simp only [get_version, allocateNextSpec, h]
  by_cases hex : fs.outputDirExists
  swap
  · simp [hex]
  simp only [hex, Bool.not_true, Bool.false_eq_true, if_false]
  have hperm := sortedStrings_perm (versionDirNames cfg.versionPrefix fs.entries)
  have hFM := hperm.filterMap (parseSuffix cfg.versionPrefix)
  have hlen := hFM.length_eq
  by_cases hni : (sortedStrings (versionDirNames cfg.versionPrefix fs.entries)).isEmpty
  · rw [List.isEmpty_eq_true] at hni
    have hnames : versionDirNames cfg.versionPrefix fs.entries = [] :=
      ((hni ▸ hperm : ([] : List String).Perm _).symm).eq_nil
    rw [hnames] at hperm ⊢
    simp [hni, hnames, sortedStrings_nil, List.isEmpty_eq_true]
  · simp only [hni, Bool.false_eq_true, if_false]
    by_cases hvn :
        ((sortedStrings (versionDirNames cfg.versionPrefix fs.entries)).filterMap
          (parseSuffix cfg.versionPrefix)).isEmpty
    · have hvnB : ((versionDirNames cfg.versionPrefix fs.entries).filterMap
          (parseSuffix cfg.versionPrefix)).isEmpty := by
        rw [List.isEmpty_iff_length_eq_zero] at hvn ⊢
        omega
      simp [hvn, hvnB]
    · have hvnB : ¬ ((versionDirNames cfg.versionPrefix fs.entries).filterMap
          (parseSuffix cfg.versionPrefix)).isEmpty := by
        rw [List.isEmpty_iff_length_eq_zero] at hvn ⊢
        omega
      rw [if_neg (by simpa using hvn), if_neg (by simpa using hvnB), listMax_perm hFM]

/-- **C1.** With auto-increment on, `ConfigLoader.get_version` returns the
prefix concatenated with `str(max(parsed integer suffixes) + 1)`, or the
prefix concatenated with `"1"` when the output directory does not exist or
no prefix-matching subdirectory has a suffix that parses as a non-negative
integer; non-parsing suffixes are ignored (they are dropped by the
`filterMap`, never an error — the function is total). -/
theorem get_version_matches_spec (cfg : Config) (fs : FS)
    (h : cfg.auto_increment = true) :
    get_version cfg fs = allocateNextSpec cfg.versionPrefix fs :=
  get_version_eq_allocate cfg fs h

theorem get_version_matches_spec_witness :
    DEFAULT_CONFIG.auto_increment = true ∧
      get_version DEFAULT_CONFIG fsC1 = allocateNextSpec "v" fsC1 :=
  ⟨rfl, get_version_matches_spec DEFAULT_CONFIG fsC1 rfl⟩

example : get_version DEFAULT_CONFIG fsC1 = "v6" := by decide

theorem versionNumKey_eq_of_parse {pre v : String} {m : Nat}
    (h : parseSuffix pre v = some m) : versionNumKey pre v = m := by
  unfold parseSuffix at h
  unfold versionNumKey
  by_cases hd : pyIsDigit (pySlice v pre.length) <;> simp [hd] at h ⊢
  exact h

/-- **C4** (the never-raises clause is false).  A stored snapshot whose
`api_config.yaml` parses to a non-mapping — an empty file parses to
`None` — makes `validate_spec` raise `AttributeError` at
`spec.get("openapi")` instead of returning a structured result. -/
theorem validate_spec_raises_counterexample :
    validate_spec "v1/api_config.yaml" (SpecFile.nonMapping "NoneType") =
      Except.error (attributeError "NoneType") ∧
    returnsResult
      (validate_spec "v1/api_config.yaml" (SpecFile.nonMapping "NoneType")) = false :=
  ⟨rfl, rfl⟩

/-- **C4 amended.**  Every structured result `validate_spec` returns has
`valid` true exactly when `errors` is empty, regardless of warnings;
`validate_spec` returns a result — rather than raising — precisely on the
load outcomes in which no `.get` lands on a non-mapping (file missing and
unparseable file included); a returned result for a mapping document
carrying the `openapi` marker but no paths is valid with a non-empty
warning list, and one for a document without the marker is invalid with a
non-empty error list; but on a document that parses to a non-mapping, or
a mapping document whose `info` value is a non-mapping, `validate_spec`
raises `AttributeError` instead of returning. -/
theorem validate_spec_matrix :
    (∀ p f r, validate_spec p f = .ok r → (r.valid = true ↔ r.errors = [])) ∧
    (∀ p f, returnsResult (validate_spec p f) = specIsMapping f) ∧
    (∀ p d r, truthyStr d.openapi = true → d.paths = [] →
      validate_spec p (SpecFile.parsed d) = .ok r →
      r.valid = true ∧ r.warnings ≠ []) ∧
    (∀ p d r, truthyStr d.openapi = false →
      validate_spec p (SpecFile.parsed d) = .ok r →
      r.valid = false ∧ r.errors ≠ []) ∧
    (∀ p ty, validate_spec p (SpecFile.nonMapping ty) = .error (attributeError ty)) ∧
    (∀ p d ty, d.info = InfoValue.nonMapping ty →
      validate_spec p (SpecFile.parsed d) = .error (attributeError ty)) := by
  refine ⟨fun p f r h => ?_, fun p f => ?_, fun p d r h1 h2 h => ?_,
    fun p d r h1 h => ?_, fun p ty => rfl, fun p d ty hinfo => ?_⟩
  · cases f with
    | missing =>
      simp [validate_spec] at h
      simp [← h]
    | unparseable e =>
      simp [validate_spec] at h
      simp [← h]
    | nonMapping ty => simp [validate_spec] at h
    | parsed d =>
      obtain ⟨op, info, paths⟩ := d
      cases info with
      | nonMapping ty => simp [validate_spec] at h
      | absent =>
        by_cases hop : truthyStr op <;> simp [validate_spec, hop] at h <;> simp [← h]
      | mapping t v =>
        by_cases hop : truthyStr op <;> simp [validate_spec, hop] at h <;> simp [← h]
  · cases f with
    | missing => rfl
    | unparseable e => rfl
    | nonMapping ty => rfl
    | parsed d =>
      obtain ⟨op, info, paths⟩ := d
      cases info <;> rfl
  · obtain ⟨op, info, paths⟩ := d
    cases info with
    | nonMapping ty => simp [validate_spec] at h
    | absent =>
      simp only at h1 h2
      subst h2
      simp [validate_spec, h1] at h
      simp [← h]
    | mapping t v =>
      simp only at h1 h2
      subst h2
      simp [validate_spec, h1] at h
      simp [← h]
  · obtain ⟨op, info, paths⟩ := d
    cases info with
    | nonMapping ty => simp [validate_spec] at h
    | absent =>
      simp only at h1
      simp [validate_spec, h1] at h
      simp [← h]
    | mapping t v =>
      simp only at h1
      simp [validate_spec, h1] at h
      simp [← h]
  · obtain ⟨op, info, paths⟩ := d
    simp only at hinfo
    subst hinfo
    rfl

theorem validate_spec_matrix_witness :
    truthyStr docNoPaths.openapi = true ∧ docNoPaths.paths = [] ∧
    validate_spec "p" (SpecFile.parsed docNoPaths) =
      .ok ⟨true, [], ["No API paths defined"]⟩ ∧
    ((⟨true, [], ["No API paths defined"]⟩ : ValidationResult).valid = true ∧
      (⟨true, [], ["No API paths defined"]⟩ : ValidationResult).warnings ≠ []) ∧
    ((⟨false, ["Missing OpenAPI version"], []⟩ : ValidationResult).valid = false ∧
      (⟨false, ["Missing OpenAPI version"], []⟩ : ValidationResult).errors ≠ []) ∧
    returnsResult (validate_spec "p" SpecFile.missing) = specIsMapping SpecFile.missing :=
  ⟨rfl, rfl, rfl,
    validate_spec_matrix.2.2.1 "p" docNoPaths
      ⟨true, [], ["No API paths defined"]⟩ rfl rfl rfl,
    validate_spec_matrix.2.2.2.1 "p" docNoMarker
      ⟨false, ["Missing OpenAPI version"], []⟩ rfl rfl,
    validate_spec_matrix.2.1 "p" SpecFile.missing⟩

/-- **C5.** `get_existing_versions` returns exactly (as a multiset) the
prefix-matching immediate subdirectories containing `api_config.yaml`,
in ascending order of the numeric sort key — in particular ascending by the
parsed numeric suffix whenever two suffixes parse. -/
theorem get_existing_versions_spec (cfg : Config) (fs : FS) :
    (get_existing_versions cfg fs).Perm (specDirNames cfg.versionPrefix fs) ∧
    (get_existing_versions cfg fs).Pairwise (fun a b =>
      versionNumKey cfg.versionPrefix a ≤ versionNumKey cfg.versionPrefix b) ∧
    (get_existing_versions cfg fs).Pairwise (fun a b =>
      ∀ m n, parseSuffix cfg.versionPrefix a = some m →
        parseSuffix cfg.versionPrefix b = some n → m ≤ n) := by
  haveI ht : IsTotal String
      (fun a b => versionNumKey cfg.versionPrefix a ≤ versionNumKey cfg.versionPrefix b) :=
    ⟨fun a b => Nat.le_total _ _⟩
  haveI htr : IsTrans String
      (fun a b => versionNumKey cfg.versionPrefix a ≤ versionNumKey cfg.versionPrefix b) :=
    ⟨fun a b c => Nat.le_trans⟩
  by_cases hex : fs.outputDirExists
  · simp only [get_existing_versions, specDirNames, hex, Bool.not_true, Bool.false_eq_true,
      if_false, if_true]
    refine ⟨List.perm_insertionSort _ _, List.sorted_insertionSort _ _, ?_⟩
    refine (List.sorted_insertionSort
      (fun a b => versionNumKey cfg.versionPrefix a ≤ versionNumKey cfg.versionPrefix b)
      _).imp ?_
    intro a b hab m n hm hn
    rw [versionNumKey_eq_of_parse hm, versionNumKey_eq_of_parse hn] at hab
    exact hab
  · simp [get_existing_versions, specDirNames, hex]

theorem get_existing_versions_spec_witness :
    (get_existing_versions DEFAULT_CONFIG fsC5).Perm (specDirNames "v" fsC5) :=
  (get_existing_versions_spec DEFAULT_CONFIG fsC5).1

example : get_existing_versions DEFAULT_CONFIG fsC5 = ["vdraft", "v2", "v10"] := by decide

/-- **C9.** Whatever step of a `generate` call fails — loading the
application, writing the schema files, or writing the metadata record —
the call returns a `GenerationError` whose attached cause is exactly the
original exception; no failure is swallowed or re-signalled as a different
error kind. -/
theorem generate_wraps_failures (cfg : Config) (mp an : String) (eff : GenEffects)
    (now : String) (force : Bool) (fs : FS) (e : PyExc)
    (h :
      eff.loadApp = .error e ∨
      ((∃ app, eff.loadApp = .ok app) ∧
        (!force && spec_exists fs (get_version cfg fs)) = false ∧
        eff.specWrite = .error e) ∨
      ((∃ app, eff.loadApp = .ok app) ∧
        (!force && spec_exists fs (get_version cfg fs)) = false ∧
        eff.specWrite = .ok () ∧ eff.metaWrite = .error e)) :
    (generate cfg mp an eff now force fs).1 = .err ⟨genErrMsg e, e⟩ := by
  rcases h with h | ⟨⟨app, ha⟩, hskip, hw⟩ | ⟨⟨app, ha⟩, hskip, hw, hm⟩
  · simp [generate, h]
  · simp [generate, ha, hskip, hw]
  · simp [generate, ha, hskip, hw, hm]

theorem generate_wraps_failures_witness :
    (generate DEFAULT_CONFIG "main.py" "app" effLoadFail "t0" false emptyFS).1 =
      .err ⟨genErrMsg ⟨"No module named main"⟩, ⟨"No module named main"⟩⟩ :=
  generate_wraps_failures DEFAULT_CONFIG "main.py" "app" effLoadFail "t0" false emptyFS
    ⟨"No module named main"⟩ (Or.inl rfl)

theorem append_pyStr_inj (p : String) {a b : Nat} (h : p ++ pyStr a = p ++ pyStr b) :
    a = b := by
  apply pyStr_injective
  have h2 : (p ++ pyStr a).data = (p ++ pyStr b).data := congrArg String.data h
  rw [data_append, data_append] at h2
  exact String.ext (List.append_cancel_left h2)

theorem versionDirNames_vEntries (mp an : String) (app : App) (now : String) (k : Nat) :
    versionDirNames "v" (vEntries mp an app now k) =
      (List.range k).map (fun i => "v" ++ pyStr (i + 1)) := by
  unfold versionDirNames vEntries
  rw [List.filter_map]
  have : ((fun d => pyStartsWith d.name "v" && d.isDir) ∘ vEntry mp an app now) =
      fun _ => true := by
    funext i
    simp [vEntry, Function.comp, pyStartsWith_append]
  rw [this, List.filter_true, List.map_map]
  rfl

theorem parseSuffix_v_append (j : Nat) : parseSuffix "v" ("v" ++ pyStr j) = some j := by
  unfold parseSuffix
  rw [pySlice_append "v" (pyStr j)]
  simp [pyIsDigit_pyStr, pyStrToNat_pyStr]

theorem listMax_range_map_succ (k : Nat) :
    listMax ((List.range k).map (fun i => i + 1)) = k := by
  induction k with
  | zero => rfl
  | succ k ih =>
    rw [List.range_succ, List.map_append]
    unfold listMax at ih ⊢
    rw [List.foldl_append, ih]
    simp [Nat.max_def]

theorem get_version_vEntries (mp an : String) (app : App) (now : String) (k : Nat) :
    get_version DEFAULT_CONFIG ⟨true, vEntries mp an app now k⟩ =
      "v" ++ pyStr (k + 1) := by
  rw [get_version_eq_allocate _ _ rfl]
  have hpre : DEFAULT_CONFIG.versionPrefix = "v" := rfl
  rw [hpre]
  unfold allocateNextSpec
  simp only [Bool.not_true, Bool.false_eq_true, if_false]
  rw [versionDirNames_vEntries mp an app now k]
  have hfm : ((List.range k).map (fun i => "v" ++ pyStr (i + 1))).filterMap
      (parseSuffix "v") = (List.range k).map (fun i => i + 1) := by
    induction k with
    | zero => rfl
    | succ k ih =>
      rw [List.range_succ, List.map_append, List.map_append, List.filterMap_append, ih]
      simp [parseSuffix_v_append]
  rw [hfm]
  cases k with
  | zero => rfl
  | succ k =>
    have hne : ¬ ((List.range (k + 1)).map (fun i => i + 1)).isEmpty = true := by
      simp [List.range_succ]
    rw [if_neg hne, listMax_range_map_succ]

theorem vEntries_no_such_name (mp an : String) (app : App) (now : String) (k : Nat) :
    ∀ d ∈ vEntries mp an app now k, (d.name == "v" ++ pyStr (k + 1)) = false := by
  intro d hd
  obtain ⟨i, hi, rfl⟩ := List.mem_map.mp hd
  rw [List.mem_range] at hi
  simp only [vEntry, beq_eq_false_iff_ne, ne_eq]
  intro h
  have := append_pyStr_inj "v" h
  omega

theorem generate_step (mp an : String) (app : App) (now : String) (k : Nat) :
    generate DEFAULT_CONFIG mp an (okEffects app) now false
        ⟨true, vEntries mp an app now k⟩ =
      (.ok ("v" ++ pyStr (k + 1)) false, ⟨true, vEntries mp an app now (k + 1)⟩) := by
  have hv := get_version_vEntries mp an app now k
  have hns := vEntries_no_such_name mp an app now k
  have hse : spec_exists ⟨true, vEntries mp an app now k⟩ ("v" ++ pyStr (k + 1)) = false := by
    rw [spec_exists, List.any_eq_false]
    intro d hd
    rw [hns d hd]
    simp
  have hwr : writeVersionDir (vEntries mp an app now k) ("v" ++ pyStr (k + 1))
      (mkMetadata DEFAULT_CONFIG mp an app now) = vEntries mp an app now (k + 1) := by
    rw [writeVersionDir, if_neg]
    · rw [show vEntries mp an app now (k + 1) =
          (List.range (k + 1)).map (vEntry mp an app now) from rfl,
        List.range_succ, List.map_append]
      rfl
    · rw [Bool.not_eq_true, List.any_eq_false]
      intro x hx
      rw [hns x hx]
      simp
  unfold generate okEffects
  simp only [hv, hse, Bool.and_false, Bool.false_eq_true, if_false, hwr]

theorem genTrace_eq (mp an : String) (app : App) (now : String) (k : Nat) :
    genTrace DEFAULT_CONFIG mp an (okEffects app) now k =
      ((List.range k).map (fun i => .ok ("v" ++ pyStr (i + 1)) false),
        ⟨true, vEntries mp an app now k⟩) := by
  induction k with
  | zero => rfl
  | succ k ih =>
    show (let p := genTrace DEFAULT_CONFIG mp an (okEffects app) now k
      let r := generate DEFAULT_CONFIG mp an (okEffects app) now false p.2
      (p.1 ++ [r.1], r.2)) = _
    rw [ih]
    simp only [generate_step]
    rw [List.range_succ, List.map_append]
    rfl

/-- **C3.** Starting from an empty output directory with the default
prefix `v`, in any sequence of `N` successful `force=false` generations the
`i`-th call (1-indexed) returns version `v{i}` (and performs a write — it
is not a skip). -/
theorem generation_sequence_versions (mp an : String) (app : App) (now : String)
    (N i : Nat) (h1 : 1 ≤ i) (h2 : i ≤ N) :
    ((genTrace DEFAULT_CONFIG mp an (okEffects app) now N).1)[i - 1]? =
      some (.ok ("v" ++ pyStr i) false) := by
  rw [genTrace_eq]
  have hlt : i - 1 < N := by omega
  rw [show ((List.range N).map fun j => GenOutcome.ok ("v" ++ pyStr (j + 1)) false) =
      (List.range N).map (fun j => GenOutcome.ok ("v" ++ pyStr (j + 1)) false) from rfl]
  rw [List.getElem?_map, List.getElem?_range hlt]
  have h3 : i - 1 + 1 = i := by omega
  simp [h3]

theorem generation_sequence_versions_witness :
    1 ≤ 2 ∧ 2 ≤ 3 ∧
      ((genTrace DEFAULT_CONFIG "main.py" "app" (okEffects app3) "t0" 3).1)[2 - 1]? =
        some (.ok ("v" ++ pyStr 2) false) :=
  ⟨by decide, by decide,
    generation_sequence_versions "main.py" "app" app3 "t0" 3 2 (by decide) (by decide)⟩

/-- **C2** (the code against the claim).  The spec — and the repository's
own test `test_force_regeneration` — expect the second of two `force=false`
generations under an identical configuration to return the same version and
perform no write.  Evaluating the code from an empty output directory under
the default configuration: the first call returns `v1`, the second returns
`v2` (not a skip), and the second call changes the on-disk state — a second
snapshot directory is written. -/
theorem generate_twice_allocates_new_version :
    (genTrace DEFAULT_CONFIG "main.py" "app" (okEffects app3) "t0" 2).1 =
      [.ok "v1" false, .ok "v2" false] ∧
    GenOutcome.ok "v2" false ≠ GenOutcome.ok "v1" false ∧
    (genTrace DEFAULT_CONFIG "main.py" "app" (okEffects app3) "t0" 2).2 ≠
      (genTrace DEFAULT_CONFIG "main.py" "app" (okEffects app3) "t0" 1).2 := by
  refine ⟨?_, by decide, ?_⟩ <;> decide

theorem foldl_strAppend (f : VersionInfo → String) :
    ∀ (l : List VersionInfo) (init : String),
      l.foldl (fun rows vi => rows ++ f vi) init =
        init ++ l.foldl (fun rows vi => rows ++ f vi) "" := by
  intro l
  induction l with
  | nil =>
    intro init
    simp [List.foldl_nil]
  | cons v l ih =>
    intro init
    rw [List.foldl_cons, List.foldl_cons, ih (init ++ f v), ih ("" ++ f v)]
    simp [String.append_assoc]

theorem renderRows_append (p : String → Option String) (l1 l2 : List VersionInfo) :
    renderRows p (l1 ++ l2) = renderRows p l1 ++ renderRows p l2 := by
  unfold renderRows
  rw [List.foldl_append, foldl_strAppend]

theorem mem_dropWhile_of_neg {q : Char → Bool} {c : Char} :
    ∀ {l : List Char}, c ∈ l → q c = false → c ∈ l.dropWhile q := by
  intro l
  induction l with
  | nil => intro h _; cases h
  | cons a l ih =>
    intro hm hq
    rw [List.dropWhile_cons]
    by_cases ha : q a
    · simp only [ha, if_true]
      rcases List.mem_cons.mp hm with rfl | hm'
      · rw [hq] at ha; cases ha
      · exact ih hm' hq
    · simp only [ha, Bool.false_eq_true, if_false]
      exact hm

theorem pyStrip_ne_empty {s : String} {c : Char} (hc : c ∈ s.data)
    (hw : c.isWhitespace = false) : pyStrip s ≠ "" := by
  unfold pyStrip
  intro h
  have hdata :
      (((s.data.dropWhile Char.isWhitespace).reverse.dropWhile Char.isWhitespace).reverse) =
        [] := congrArg String.data h
  have h1 := mem_dropWhile_of_neg hc hw
  have h2 := List.mem_reverse.mpr h1
  have h3 := mem_dropWhile_of_neg h2 hw
  have h4 := List.mem_reverse.mpr h3
  rw [hdata] at h4
  cases h4

theorem lt_mem_renderRow (p : String → Option String) (vi : VersionInfo) :
    ('<' : Char) ∈ (renderRow p vi).data := by
  have h1 : ('<' : Char) ∈ rowChunk1.data := by decide
  unfold renderRow
  simp only [data_append, List.mem_append]
  tauto

theorem versions_map_perm (fs : FS) :
    ((get_versions_with_metadata fs).map VersionInfo.version).Perm
      ((vDirEntries fs).map DirEntry.name) := by
  by_cases hex : fs.outputDirExists
  · simp only [get_versions_with_metadata, vDirEntries, hex, Bool.not_true,
      Bool.false_eq_true, if_false, if_true]
    have hp := (List.perm_insertionSort
      (fun a b : VersionInfo => version_sort_key b.version ≤ version_sort_key a.version)
      ((fs.entries.filter (fun d => pyStartsWith d.name "v" && d.isDir)).map
        (fun d => VersionInfo.mk d.name d.metadata))).map VersionInfo.version
    rw [List.map_map] at hp
    exact hp
  · simp [get_versions_with_metadata, vDirEntries, hex]

theorem versions_sorted_desc (fs : FS) :
    (get_versions_with_metadata fs).Pairwise
      (fun a b => version_sort_key b.version ≤ version_sort_key a.version) := by
  haveI : IsTotal VersionInfo
      (fun a b => version_sort_key b.version ≤ version_sort_key a.version) :=
    ⟨fun a b => Nat.le_total _ _⟩
  haveI : IsTrans VersionInfo
      (fun a b => version_sort_key b.version ≤ version_sort_key a.version) :=
    ⟨fun a b c hab hbc => Nat.le_trans hbc hab⟩
  by_cases hex : fs.outputDirExists
  · simp only [get_versions_with_metadata, hex, Bool.not_true, Bool.false_eq_true, if_false]
    exact List.sorted_insertionSort _ _
  · simp [get_versions_with_metadata, hex]

theorem renderRows_ne_blank (p : String → Option String) {vs : List VersionInfo}
    (h : vs ≠ []) : pyStrip (renderRows p vs) ≠ "" := by
  obtain ⟨v, vs', rfl⟩ := List.exists_cons_of_ne_nil h
  have hsplit : renderRows p (v :: vs') = renderRows p [v] ++ renderRows p vs' :=
    renderRows_append p [v] vs'
  have hone : renderRows p [v] = "" ++ renderRow p v := rfl
  have hmem : ('<' : Char) ∈ (renderRows p (v :: vs')).data := by
    rw [hsplit, hone]
    simp [data_append, List.mem_append, lt_mem_renderRow p v]
  exact pyStrip_ne_empty hmem (by decide)

theorem generate_html_index_of_versions (p : String → Option String)
    (titl desc : String) (fs : FS) (h : get_versions_with_metadata fs ≠ []) :
    generate_html_index p titl desc fs =
      indexHead titl desc ++ renderRows p (get_versions_with_metadata fs) ++ indexTail := by
  simp only [generate_html_index]
  rw [if_neg (renderRows_ne_blank p h)]

theorem renderRows_singleton (p : String → Option String) (vi : VersionInfo) :
    renderRows p [vi] = renderRow p vi := by
  show "" ++ renderRow p vi = renderRow p vi
  exact String.ext (by simp [data_append])

theorem containsSub_iff (pat s : List Char) : containsSub pat s = true ↔ pat <:+: s := by
  unfold containsSub
  rw [List.any_eq_true]
  constructor
  · rintro ⟨t, ht, hp⟩
    rw [List.mem_tails] at ht
    rw [List.isPrefixOf_iff_prefix] at hp
    exact List.infix_iff_prefix_suffix.mpr ⟨t, hp, ht⟩
  · intro h
    obtain ⟨t, hp, hs⟩ := List.infix_iff_prefix_suffix.mp h
    exact ⟨t, (List.mem_tails _ _).mpr hs, List.isPrefixOf_iff_prefix.mpr hp⟩

/-- **C6.** Rendering the root index lists every on-disk (`v*`-glob)
version: the enumeration is exactly the `v`-prefixed directories (as a
multiset), sorted descending by numeric version suffix; each enumerated
version's table row occurs in the rendered document; and a version whose
metadata record is absent or unparseable is still listed, with the
`"Unknown"` placeholders for its generation timestamp and route count,
rather than being excluded. -/
theorem index_lists_versions (parseIso : String → Option String) (titl desc : String)
    (fs : FS) :
    ((get_versions_with_metadata fs).map VersionInfo.version).Perm
      ((vDirEntries fs).map DirEntry.name) ∧
    (get_versions_with_metadata fs).Pairwise
      (fun a b => version_sort_key b.version ≤ version_sort_key a.version) ∧
    (∀ vi ∈ get_versions_with_metadata fs,
      (renderRow parseIso vi).data <:+: (generate_html_index parseIso titl desc fs).data) ∧
    (∀ vi ∈ get_versions_with_metadata fs, vi.metadata = none →
      rowGeneratedAt vi = "Unknown" ∧ rowRoutesCount vi = "Unknown" ∧
        formatDate parseIso (rowGeneratedAt vi) = "Unknown") := by
  refine ⟨versions_map_perm fs, versions_sorted_desc fs, ?_, ?_⟩
  · intro vi hvi
    have hne : get_versions_with_metadata fs ≠ [] := by
      intro hnil
      rw [hnil] at hvi
      cases hvi
    rw [generate_html_index_of_versions parseIso titl desc fs hne]
    obtain ⟨l1, l2, hsplit⟩ := List.append_of_mem hvi
    have h2 := renderRows_append parseIso l1 (vi :: l2)
    have h3 := renderRows_append parseIso [vi] l2
    rw [List.singleton_append] at h3
    rw [hsplit, h2, h3, renderRows_singleton]
    exact ⟨(indexHead titl desc).data ++ (renderRows parseIso l1).data,
      (renderRows parseIso l2).data ++ indexTail.data,
      by simp [data_append, List.append_assoc]⟩
  · rintro ⟨v, md⟩ hvi hmeta
    cases hmeta
    exact ⟨rfl, rfl, by simp [formatDate, rowGeneratedAt]⟩

theorem index_lists_versions_witness :
    (⟨"v1", none⟩ : VersionInfo) ∈ get_versions_with_metadata fsC6 ∧
    (renderRow (fun _ => none) ⟨"v1", none⟩).data <:+:
      (generate_html_index (fun _ => none) indexDefaultTitle indexDefaultDescription
        fsC6).data ∧
    rowGeneratedAt ⟨"v1", none⟩ = "Unknown" ∧ rowRoutesCount ⟨"v1", none⟩ = "Unknown" :=
  ⟨by decide,
    (index_lists_versions (fun _ => none) indexDefaultTitle indexDefaultDescription
      fsC6).2.2.1 ⟨"v1", none⟩ (by decide),
    ((index_lists_versions (fun _ => none) indexDefaultTitle indexDefaultDescription
      fsC6).2.2.2 ⟨"v1", none⟩ (by decide) rfl).1,
    ((index_lists_versions (fun _ => none) indexDefaultTitle indexDefaultDescription
      fsC6).2.2.2 ⟨"v1", none⟩ (by decide) rfl).2.1⟩

set_option maxRecDepth 100000 in
/-- **C7.** When the output directory holds no `v*` subdirectory (or does
not exist at all), rendering the root index still produces a document (the
renderer is total on this state), the document contains the explicit
empty-state marker, and — with the default title and description — it
contains no version link (`<a href="api/` anchor). -/
theorem index_empty_state (parseIso : String → Option String) (titl desc : String)
    (fs : FS) (h : vDirEntries fs = []) :
    emptyStateMarker.data <:+: (generate_html_index parseIso titl desc fs).data ∧
    ¬ versionAnchorPat.data <:+:
        (generate_html_index parseIso indexDefaultTitle indexDefaultDescription fs).data := by
  have hvs : get_versions_with_metadata fs = [] := by
    by_cases hex : fs.outputDirExists
    · unfold vDirEntries at h
      rw [if_pos hex] at h
      simp only [get_versions_with_metadata, hex, Bool.not_true, Bool.false_eq_true, if_false]
      rw [h]
      rfl
    · simp [get_versions_with_metadata, hex]
  have hdoc : ∀ t d, generate_html_index parseIso t d fs =
      indexHead t d ++ emptyStateRow ++ indexTail := by
    intro t d
    simp only [generate_html_index, hvs]
    rfl
  constructor
  · have h1 : emptyStateMarker.data <:+: emptyStateRow.data := by decide
    have h2 : emptyStateRow.data <:+: (generate_html_index parseIso titl desc fs).data := by
      rw [hdoc]
      exact ⟨(indexHead titl desc).data, indexTail.data,
        by simp [data_append, List.append_assoc]⟩
    exact h1.trans h2
  · rw [hdoc, ← containsSub_iff]
    decide

theorem index_empty_state_witness :
    vDirEntries fsMissing = [] ∧
    emptyStateMarker.data <:+:
      (generate_html_index (fun _ => none) indexDefaultTitle indexDefaultDescription
        fsMissing).data :=
  ⟨by decide,
    (index_empty_state (fun _ => none) indexDefaultTitle indexDefaultDescription
      fsMissing (by decide)).1⟩

set_option maxRecDepth 400000 in
/-- **C10** (the claim's final clause is false).  With configured prefix
`"ver"` (≠ `"v"`) the generator writes `ver1`; the index enumeration —
which globs the literal `v*` — still picks it up, and its row occurs in
the rendered index: it is not the case that versions written under a
non-`"v"` prefix never appear. -/
theorem index_nonv_prefix_counterexample :
    cfgVer.versionPrefix ≠ "v" ∧
    (generate cfgVer "main.py" "app" (okEffects app3) "t0" false emptyFS).1 =
      .ok ("ver" ++ pyStr 1) false ∧
    ("ver" ++ pyStr 1) ∈ (get_versions_with_metadata fsC10).map VersionInfo.version ∧
    (versionAnchorPat ++ "ver1").data <:+:
      (generate_html_index (fun _ => none) indexDefaultTitle indexDefaultDescription
        fsC10).data := by
  refine ⟨by decide, by decide, by decide, ?_⟩
  rw [← containsSub_iff]
  decide

/-- **C10 amended.**  The index enumeration contains exactly the
subdirectories whose names start with the literal `"v"` — it consults
neither the configured version prefix nor the presence of the schema file
— and a version directory written under a configured prefix whose first
character is not `v` (including the empty prefix) never appears in the
enumeration. -/
theorem index_v_glob_enumeration :
    (∀ fs, ((get_versions_with_metadata fs).map VersionInfo.version).Perm
      ((vDirEntries fs).map DirEntry.name)) ∧
    (∀ (pre : String) (k : Nat) (fs : FS), pre.data.head? ≠ some 'v' →
      (pre ++ pyStr (k + 1)) ∉ (get_versions_with_metadata fs).map VersionInfo.version) := by
  refine ⟨versions_map_perm, ?_⟩
  intro pre k fs hh hmem
  rw [(versions_map_perm fs).mem_iff] at hmem
  obtain ⟨d, hd, hname⟩ := List.mem_map.mp hmem
  have hstart : pyStartsWith d.name "v" = true := by
    unfold vDirEntries at hd
    by_cases hex : fs.outputDirExists
    · rw [if_pos hex] at hd
      have hf := (List.mem_filter.mp hd).2
      exact (Bool.and_eq_true_iff.mp hf).1
    · rw [if_neg hex] at hd
      cases hd
  have hhead : d.name.data.head? = some 'v' := by
    unfold pyStartsWith at hstart
    rw [List.isPrefixOf_iff_prefix] at hstart
    obtain ⟨t, ht⟩ := hstart
    rw [show ("v" : String).data = ['v'] from rfl] at ht
    rw [← ht]
    rfl
  rw [hname, data_append] at hhead
  cases hp : pre.data with
  | nil =>
    rw [hp, List.nil_append] at hhead
    cases hdata : (pyStr (k + 1)).data with
    | nil => rw [hdata] at hhead; cases hhead
    | cons c rest =>
      rw [hdata] at hhead
      have hcv : c = 'v' := by
        simpa using hhead
      have hdig : c.isDigit = true :=
        pyStr_all_digits (hdata ▸ List.mem_cons_self c rest)
      rw [hcv] at hdig
      exact absurd hdig (by decide)
  | cons a rest =>
    rw [hp, List.cons_append] at hhead
    have hav : a = 'v' := by simpa using hhead
    rw [hp] at hh
    exact hh (by rw [hav]; rfl)

theorem index_v_glob_enumeration_witness :
    ("api" : String).data.head? ≠ some 'v' ∧
    ("api" ++ pyStr 1) ∉ (get_versions_with_metadata emptyFS).map VersionInfo.version :=
  ⟨by decide, index_v_glob_enumeration.2 "api" 0 emptyFS (by decide)⟩

/-- **C8** (the exact-field-list clause is false).  The record
`_save_metadata` persists also carries a `fastapi_version` field, so its
key list is not the one the claim asserts. -/
theorem metadata_keys_counterexample :
    (metadataJson (mkMetadata DEFAULT_CONFIG "main.py" "app" app3 "t0")).map Prod.fst ≠
      specClaimedMetadataKeys := by decide

/-- **C8 amended.**  After a successful generation of an application with
3 declared routes the persisted metadata record contains
`routes_count = 3`, and it contains exactly the fields `generated_at`,
`generator`, `module_path`, `app_name`, `fastapi_version`, `routes_count`
and a `config` sub-record with exactly `output_dir`, `title`,
`description`; a first successful generation stores precisely this record
in the new version directory. -/
theorem metadata_record_fields (cfg : Config) (mp an : String) (app : App)
    (now : String) (h : app.routes.length = 3) :
    (metadataJson (mkMetadata cfg mp an app now)).map Prod.fst =
      ["generated_at", "generator", "module_path", "app_name", "fastapi_version",
        "routes_count", "config"] ∧
    (mkMetadata cfg mp an app now).routes_count = 3 ∧
    (metadataJson (mkMetadata cfg mp an app now)).lookup "config" =
      some (JValue.obj
        [ ("output_dir", JValue.s cfg.output_dir)
        , ("title", JValue.s cfg.title)
        , ("description", JValue.s cfg.description) ]) ∧
    (generate cfg mp an (okEffects app) now false emptyFS).2.entries =
      [⟨get_version cfg emptyFS, true, true, some (mkMetadata cfg mp an app now)⟩] := by
  refine ⟨rfl, h, rfl, ?_⟩
  simp [generate, okEffects, spec_exists, writeVersionDir, emptyFS]

theorem metadata_record_fields_witness :
    app3.routes.length = 3 ∧
    (mkMetadata DEFAULT_CONFIG "main.py" "app" app3 "t0").routes_count = 3 ∧
    (metadataJson (mkMetadata DEFAULT_CONFIG "main.py" "app" app3 "t0")).map Prod.fst =
      ["generated_at", "generator", "module_path", "app_name", "fastapi_version",
        "routes_count", "config"] :=
  ⟨by decide,
    (metadata_record_fields DEFAULT_CONFIG "main.py" "app" app3 "t0" (by decide)).2.1,
    (metadata_record_fields DEFAULT_CONFIG "main.py" "app" app3 "t0" (by decide)).1⟩

end Aemon
